import Mathlib

/-!
Verification development for the upgrade existence-test helpers
(`upgrade_tests/helpers/existence.py`): a shallow embedding of the snapshot
data model, the entity locator and correlator, the template store, and the
variant-tolerant template diff engine, together with theorems settling the
specification claims against the embedded code.
-/

set_option maxRecDepth 4000

namespace SatUp

/-! ### Python string primitives -/

/-- Membership of a character in a character set (Python `c in chars`). -/
def charIn (cs : List Char) (c : Char) : Bool := cs.contains c

/-- Python `str.strip(chars)`: remove leading and trailing characters that
belong to the given character set (a set, not a suffix/prefix string). -/
def pyStripChars (s : String) (cs : List Char) : String :=
  String.mk (((s.data.dropWhile (charIn cs)).reverse.dropWhile (charIn cs)).reverse)

/-- Python `str.strip()` with no argument: remove leading and trailing
whitespace. -/
def pyStripWs (s : String) : String :=
  String.mk (((s.data.dropWhile Char.isWhitespace).reverse.dropWhile Char.isWhitespace).reverse)

/-- Python `str.rstrip()`: remove trailing whitespace. -/
def pyRstrip (s : String) : String :=
  String.mk ((s.data.reverse.dropWhile Char.isWhitespace).reverse)

/-- Python `str.lower()` (ASCII case folding, which covers the data used by
the helpers). -/
def pyLower (s : String) : String := String.mk (s.data.map Char.toLower)

/-- Whether the first list is a leading segment of the second. -/
def listHasPre [BEq α] : List α → List α → Bool
  | [], _ => true
  | _ :: _, [] => false
  | a :: as, b :: bs => a == b && listHasPre as bs

/-- Whether the first list occurs contiguously inside the second. -/
def listHasSub [BEq α] (needle : List α) : List α → Bool
  | [] => needle.isEmpty
  | c :: t => listHasPre needle (c :: t) || listHasSub needle t

/-- Python substring test `needle in hay` for strings. -/
def strSub (needle hay : String) : Bool := listHasSub needle.data hay.data

/-- Leading-segment test for strings, computed on the character lists. -/
def strHasPre (p s : String) : Bool := listHasPre p.data s.data

/-- Drop the first `n` characters of a string. -/
def strDropN (s : String) (n : Nat) : String := String.mk (s.data.drop n)

/-- A single-quote character, used when rebuilding Python `repr` output. -/
def sq : String := String.singleton (Char.ofNat 39)

/-! ### Python values

Snapshot entities are JSON-like heterogeneous records: strings, nulls,
integers, nested lists and nested mappings. -/

/-- A Python/JSON value as stored in a snapshot datastore. -/
inductive PyVal
  | str (s : String)
  | none
  | int (n : Int)
  | list (l : List PyVal)
  | dict (d : List (String × PyVal))

/-- Python `repr` of a string: quoted with single quotes, or double quotes
when the text contains a single quote and no double quote; backslashes,
quotes and the common control characters are escaped. -/
def pyReprStr (s : String) : String :=
  let squote : Char := Char.ofNat 39
  let dquote : Char := Char.ofNat 34
  let q : Char := if s.data.contains squote && !(s.data.contains dquote) then dquote else squote
  let esc : Char → String := fun c =>
    if c == '\\' then "\\\\"
    else if c == q then "\\" ++ String.singleton q
    else if c == '\n' then "\\n"
    else if c == '\r' then "\\r"
    else if c == '\t' then "\\t"
    else String.singleton c
  String.singleton q ++ String.join (s.data.map esc) ++ String.singleton q

mutual

/-- Python `repr` of a value (nested values rendered recursively). -/
def pyRepr : PyVal → String
  | .str s => pyReprStr s
  | .none => "None"
  | .int n => toString n
  | .list l => "[" ++ String.intercalate ", " (pyReprList l) ++ "]"
  | .dict d => "\x7b" ++ String.intercalate ", " (pyReprPairs d) ++ "\x7d"

/-- Helper of `pyRepr` for list elements. -/
def pyReprList : List PyVal → List String
  | [] => []
  | v :: r => pyRepr v :: pyReprList r

/-- Helper of `pyRepr` for mapping items. -/
def pyReprPairs : List (String × PyVal) → List String
  | [] => []
  | (k, v) :: r => (pyReprStr k ++ ": " ++ pyRepr v) :: pyReprPairs r

end

/-- Python `str` of a value: the string itself for strings, and its `repr`
otherwise (matching `str` on None, ints, lists and dicts). -/
def pyStr : PyVal → String
  | .str s => s
  | v => pyRepr v

/-- Whether a value is Python `None`. -/
def PyVal.isNoneV : PyVal → Bool
  | .none => true
  | _ => false

/-- Python `v == s` where `s` is a string: true exactly for the equal string
(values of other types never compare equal to a string). -/
def pyEqToStr (v : PyVal) (s : String) : Bool :=
  match v with
  | .str t => t == s
  | _ => false

/-! ### Python-level errors

Structural misuse is surfaced as raised exceptions; the embedding returns
them through `Except`. -/

/-- The exceptions the helpers can raise. -/
inductive PyErr
  | incorrectEndpoint (msg : String)
  | incorrectTemplateType (msg : String)
  | typeError (msg : String)
  | keyError (msg : String)
  | valueError (msg : String)
  | indexError (msg : String)
  | attributeError (msg : String)
  | fileNotFound (msg : String)

/-- First-match association lookup, the model of looking a key up in a
Python dict whose items are listed in insertion order. -/
def assocLookup : List (String × PyVal) → String → Option PyVal
  | [], _ => Option.none
  | (k', v) :: r, k => if k' == k then some v else assocLookup r k

/-- Python `dct.get(key)` (default `None`); a non-dict receiver raises
`AttributeError`.  A `None` key is passed through unchanged and matches no
JSON key. -/
def pyGet : PyVal → Option String → Except PyErr PyVal
  | .dict d, some k => .ok ((assocLookup d k).getD .none)
  | .dict _, Option.none => .ok .none
  | _, _ => .error (.attributeError "object has no attribute get")

/-! ### EntityLocator: `_find_on_list_of_dicts` -/

/-- The list comprehension `[dct.get(data_key) for dct in lst]`. -/
def pyGetValues : List PyVal → Option String → Except PyErr (List PyVal)
  | [], _ => .ok []
  | d :: rest, k =>
    match pyGet d k with
    | .error e => .error e
    | .ok v =>
      match pyGetValues rest k with
      | .error e => .error e
      | .ok vs => .ok (v :: vs)

/-- The loop `for v in dct_values: if v is not None: return v` followed by
`raise KeyError`. -/
def firstNotNone : List PyVal → Option PyVal
  | [] => Option.none
  | v :: r => if v.isNoneV then firstNotNone r else some v

/-- Message of the `KeyError` raised when no dictionary holds a non-null
value for the key. -/
def noDataMsg (data_key : Option String) : String :=
  "Unable to find data for key " ++ sq ++ (match data_key with
    | some k => k
    | Option.none => "None") ++ sq ++ " in satellite."

/-- `_find_on_list_of_dicts` (source name has a leading underscore):
with `all_` true, the values of `data_key` across every dictionary; with
`all_` false, the first non-`None` value, or a `KeyError` when none exists. -/
def find_on_list_of_dicts (lst : List PyVal) (data_key : Option String) (all_ : Bool) :
    Except PyErr PyVal :=
  match pyGetValues lst data_key with
  | .error e => .error e
  | .ok dct_values =>
    if all_ then .ok (.list dct_values)
    else
      match firstNotNone dct_values with
      | some v => .ok v
      | Option.none => .error (.keyError (noDataMsg data_key))

/-! ### EntityLocator: `_find_on_list_of_dicts_using_search_criteria` -/

/-- Condition of the inner item scan:
`search_value == str(value) and key == search_key`. -/
def entMatches (search_key : String) (search_value : PyVal) (items : List (String × PyVal)) : Bool :=
  items.any (fun kv => pyEqToStr search_value (pyStr kv.2) && kv.1 == search_key)

/-- Sentinel returned when no entity matches the criteria. -/
def entityMissingMsg (search_key : String) (search_value : PyVal) : String :=
  search_key ++ " : " ++ pyStr search_value ++ " entity missing"

/-- Sentinel returned when the matching entity lacks the requested
attribute. -/
def attrMissingMsg (attr search_key : String) (search_value : PyVal) : String :=
  attr ++ " attribute missing for " ++ search_key ++ " : " ++ pyStr search_value

/-- `tuple(single_dict.items())`; a non-dict entity raises
`AttributeError`. -/
def pyItems : PyVal → Except PyErr (List (String × PyVal))
  | .dict d => .ok d
  | _ => .error (.attributeError "object has no attribute items")

/-- The outer loop of `_find_on_list_of_dicts_using_search_criteria`: scan
entities in order; on the first entity with an item whose value stringifies
to the search value under the search key, return `entity.get(attr, <attr
missing sentinel>)`; if no entity matches, return the entity-missing
sentinel. -/
def findCriteriaLoop (search_key : String) (search_value : PyVal) (attr : String) :
    List PyVal → Except PyErr PyVal
  | [] => .ok (.str (entityMissingMsg search_key search_value))
  | d :: rest =>
    match pyItems d with
    | .error e => .error e
    | .ok items =>
      if entMatches search_key search_value items then
        .ok ((assocLookup items attr).getD (.str (attrMissingMsg attr search_key search_value)))
      else findCriteriaLoop search_key search_value attr rest

/-- `_find_on_list_of_dicts_using_search_criteria` (source name has a
leading underscore).  The search criteria dict is modelled as its item
list; the code reads `keys()[0]` and `values()[0]`, raising `IndexError`
on an empty dict. -/
def find_on_list_of_dicts_using_search_criteria
    (lst_of_dct : List PyVal) (search_criteria : List (String × PyVal)) (attr : String) :
    Except PyErr PyVal :=
  match search_criteria with
  | [] => .error (.indexError "list index out of range")
  | (search_key, search_value) :: _ => findCriteriaLoop search_key search_value attr lst_of_dct

/-! ### SnapshotStore: `set_datastore` / `get_datastore` -/

/-- Modelled from the spec: `settings.upgrade.existence_test.allowed_ends`
is configuration living outside the sources; the spec fixes the recognized
endpoint modes to exactly "cli" and "api". -/
def allowed_ends : List String := ["cli", "api"]

/-- Message of the `IncorrectEndpointException` raised on an unknown
endpoint: the Python f-string renders the allowed list with `repr`. -/
def endpointErrMsg : String :=
  "Endpoints has to be one of " ++ pyRepr (.list (allowed_ends.map .str))

/-- The datastore files on disk: file name to the JSON payload persisted in
it (component dictionaries, one per component).  Writing prepends and
lookup takes the first match, modelling overwrite-on-write. -/
def DsFiles := List (String × List PyVal)

/-- `set_datastore`: gathers component data through the cli (hammer) or api
(nailgun) collaborators — modelled as the opaque inputs `cli_data` and
`api_data` — and writes it to the file `{datastore}_{endpoint}`.  Any other
endpoint raises `IncorrectEndpointException` before the file is opened. -/
def set_datastore (cli_data api_data : List PyVal) (fs : DsFiles)
    (datastore endpoint : String) : Except PyErr DsFiles :=
  if endpoint == "cli" then .ok ((datastore ++ "_" ++ endpoint, cli_data) :: fs)
  else if endpoint == "api" then .ok ((datastore ++ "_" ++ endpoint, api_data) :: fs)
  else .error (.incorrectEndpoint endpointErrMsg)

/-- `get_datastore`: rejects endpoints outside `allowed_ends` before the
file is opened, then loads the JSON payload of `{datastore}_{endpoint}`. -/
def get_datastore (fs : DsFiles) (datastore endpoint : String) :
    Except PyErr (List PyVal) :=
  if !(allowed_ends.contains endpoint) then .error (.incorrectEndpoint endpointErrMsg)
  else
    match fs.find? (fun f => f.1 == (datastore ++ "_" ++ endpoint)) with
    | some f => .ok f.2
    | Option.none => .error (.fileNotFound (datastore ++ "_" ++ endpoint))

/-! ### `find_datastore` -/

/-- Modelled from the spec: `depreciated_attrs_less_component_data` lives in
`upgrade_tests/helpers/variants.py`, which is not among the sources; the
spec describes the all-values lookup as returning the full sequence of
values across every entity, preserving order, so the hook is modelled as
the identity on the collected values. -/
def depreciated_attrs_less_component_data (_component : Option String) (attr_entities : PyVal) :
    PyVal :=
  attr_entities

/-- Truthiness of the optional attribute name (`None` and the empty string
are falsy). -/
def attrTruthy : Option String → Bool
  | some s => !(s == "")
  | Option.none => false

/-- Truthiness of the optional search-criteria dict (`None` and an empty
dict are falsy). -/
def critTruthy : Option (List (String × PyVal)) → Bool
  | some (_ :: _) => true
  | _ => false

/-- `find_datastore`: lower-cases the component and attribute names, locates
the component entity list, and then either collects all attribute values
(no criteria) or resolves one attribute through the search criteria.  The
code returns `None` implicitly when neither branch applies. -/
def find_datastore (datastore : List PyVal) (component : Option String)
    (attrName : Option String) (search_criteria : Option (List (String × PyVal))) :
    Except PyErr PyVal :=
  let component := component.map pyLower
  let attrName := attrName.map pyLower
  match find_on_list_of_dicts datastore component false with
  | .error e => .error e
  | .ok comp_data =>
    match comp_data with
    | .list entities =>
      if search_criteria.isNone && attrTruthy attrName then
        match find_on_list_of_dicts entities attrName true with
        | .error e => .error e
        | .ok attr_entities => .ok (depreciated_attrs_less_component_data component attr_entities)
      else if critTruthy search_criteria && attrTruthy attrName then
        find_on_list_of_dicts_using_search_criteria entities (search_criteria.getD [])
          (attrName.getD "")
      else .ok .none
    | _ => .ok .none

/-! ### Correlator: `compare_postupgrade` -/

/-- The runtime configuration consumed by the correlator. -/
structure UpgradeSettings where
  endpoint : String
  supported_sat_versions : List String
  from_version : String
  to_version : String

/-- The attribute argument of `compare_postupgrade`: a string, a tuple of
per-version names, or a value of any other type. -/
inductive AttrSpec
  | str (s : String)
  | tup (l : List String)
  | other

/-- Python `list.index`: position of the first occurrence, `ValueError` when
absent. -/
def pyListIndex : List String → String → Except PyErr Nat
  | [], x => .error (.valueError (pyReprStr x ++ " is not in list"))
  | a :: rest, x =>
    if a == x then .ok 0
    else
      match pyListIndex rest x with
      | .ok n => .ok (n + 1)
      | .error e => .error e

/-- Python tuple subscription `t[i]`: `IndexError` when out of range. -/
def pyTupleGet (l : List String) (i : Nat) : Except PyErr String :=
  match l.get? i with
  | some s => .ok s
  | Option.none => .error (.indexError "tuple index out of range")

/-- Message of the `TypeError` raised on a wrongly-typed attribute
argument. -/
def wrongAttrTypeMsg : String :=
  "Wrong attribute type provided in test. Please provide one of string/tuple."

/-- The attribute-resolution prefix of `compare_postupgrade`: a tuple is
indexed by the positions of the configured from/to versions in the
supported-version sequence, a string is used on both sides, anything else
raises `TypeError`. -/
def resolve_attrs (st : UpgradeSettings) : AttrSpec → Except PyErr (String × String)
  | .tup l =>
    match pyListIndex st.supported_sat_versions st.from_version with
    | .error e => .error e
    | .ok i =>
      match pyTupleGet l i with
      | .error e => .error e
      | .ok pre_attr =>
        match pyListIndex st.supported_sat_versions st.to_version with
        | .error e => .error e
        | .ok j =>
          match pyTupleGet l j with
          | .error e => .error e
          | .ok post_attr => .ok (pre_attr, post_attr)
  | .str s => .ok (s, s)
  | .other => .error (.typeError wrongAttrTypeMsg)

/-- Python `for x in v`: the element sequence of an iterable value;
iterating `None` or an int raises `TypeError`. -/
def pyIterVal : PyVal → Except PyErr (List PyVal)
  | .list l => .ok l
  | .str s => .ok (s.data.map (fun c => .str c.toString))
  | .dict d => .ok (d.map (fun kv => .str kv.1))
  | .none => .error (.typeError "NoneType object is not iterable")
  | .int _ => .error (.typeError "int object is not iterable")

/-- Python `'missing' in v` as used on the lookup results: substring test
for strings, membership for lists and dicts, `TypeError` for `None` and
ints. -/
def pyContainsOp (needle : String) : PyVal → Except PyErr Bool
  | .str s => .ok (strSub needle s)
  | .list l => .ok (l.any (fun v => pyEqToStr v needle))
  | .dict d => .ok (d.any (fun kv => kv.1 == needle))
  | .none => .error (.typeError "argument of type NoneType is not iterable")
  | .int _ => .error (.typeError "argument of type int is not iterable")

/-- One iteration of the `compare_postupgrade` loop: look the target
attribute up on both sides for one key value, collapse to a
missing-version pair when either result renders with "missing", otherwise
keep the literal pair. -/
def compare_case (predata postdata : List PyVal) (component atr pre_attr post_attr : String)
    (test_case : PyVal) : Except PyErr (PyVal × PyVal) :=
  match find_datastore predata (some component) (some pre_attr)
      (some [(atr, .str (pyStr test_case))]) with
  | .error e => .error e
  | .ok preupgrade_entity =>
    match find_datastore postdata (some component) (some post_attr)
        (some [(atr, .str (pyStr test_case))]) with
    | .error e => .error e
    | .ok postupgrade_entity =>
      if strSub "missing" (pyStr preupgrade_entity) ||
          strSub "missing" (pyStr postupgrade_entity) then
        match pyContainsOp "missing" preupgrade_entity with
        | .error e => .error e
        | .ok inPre =>
          let culprit := if inPre then preupgrade_entity else postupgrade_entity
          let culprit_ver :=
            if inPre then " in preupgrade version" else " in postupgrade version"
          .ok (culprit, .str culprit_ver)
      else .ok (preupgrade_entity, postupgrade_entity)

/-- `compare_postupgrade`: resolve the per-version attribute names, load the
two snapshots, enumerate the key values from the preupgrade snapshot and
pair the per-key lookups.  `cli_attributes_key` stands for the
`CLI_ATTRIBUTES_KEY` table imported from the constants module. -/
def compare_postupgrade (st : UpgradeSettings) (cli_attributes_key : String → String)
    (fs : DsFiles) (component : String) (attrArg : AttrSpec) :
    Except PyErr (List (PyVal × PyVal)) :=
  match resolve_attrs st attrArg with
  | .error e => .error e
  | .ok (pre_attr, post_attr) =>
    match get_datastore fs "preupgrade" st.endpoint with
    | .error e => .error e
    | .ok predata =>
      match get_datastore fs "postupgrade" st.endpoint with
      | .error e => .error e
      | .ok postdata =>
        let atr := if st.endpoint == "api" then "id" else cli_attributes_key component
        match find_datastore predata (some component) (some atr) Option.none with
        | .error e => .error e
        | .ok tcs =>
          match pyIterVal tcs with
          | .error e => .error e
          | .ok test_cases =>
            test_cases.mapM (compare_case predata postdata component atr pre_attr post_attr)

/-! ### TemplateStore: `_template_writer` / `find_templatestore`

A template directory `{state}_templates/{template_type}` is modelled as its
file list (file name with extension, content); `os.listdir` enumerates the
files in their stored order. -/

/-- One template directory on disk. -/
structure TemplateDir where
  files : List (String × String)

/-- First-match file lookup inside a directory. -/
def lookupFile (dir : TemplateDir) (fname : String) : Option String :=
  match dir.files.find? (fun f => f.1 == fname) with
  | some f => some f.2
  | Option.none => Option.none

/-- `_template_writer` (source name has a leading underscore): writes, for
each id, the body delivered by the external template reader — modelled as
the opaque `content` map — to the file `{template_id}.erb`. -/
def template_writer (template_ids : List String) (content : String → String) : TemplateDir :=
  ⟨template_ids.map (fun tid => (tid ++ ".erb", content tid))⟩

/-- The character set passed to `str.strip` when the listing drops the
`.erb` extension. -/
def erbChars : List Char := ['.', 'e', 'r', 'b']

/-- Result of `find_templatestore`: an id listing, a `(path, content)` pair,
or the missing-template sentinel string. -/
inductive TemplResult
  | ids (l : List String)
  | found (path content : String)
  | missing (msg : String)

/-- `find_templatestore`: with a falsy id, the listing
`[name.strip('.erb') for name in os.listdir(...)]`; otherwise the id is
whitespace-stripped, and the lookup yields the `(path, content)` pair or
the missing-template sentinel string. -/
def find_templatestore (dir : TemplateDir) (templatestorestate template_type : String)
    (template_id : Option String) : TemplResult :=
  let templates_path := templatestorestate ++ "_templates/" ++ template_type
  if template_id.getD "" == "" then
    .ids (dir.files.map (fun f => pyStripChars f.1 erbChars))
  else
    let tid := pyStripWs (template_id.getD "")
    match lookupFile dir (tid ++ ".erb") with
    | some content => .found (templates_path ++ "/" ++ tid ++ ".erb") content
    | Option.none => .missing (template_type ++ " template of ID " ++ tid ++ " is missing")

/-! ### The line differ (`difflib.Differ`)

`assert_templates` diffs the two template bodies with
`difflib.Differ().compare`.  The matcher below embeds CPython's
`SequenceMatcher` (junk-aware longest-match search, matching-block
recursion, opcodes) and `Differ` (two-column dumps, the fancy-replace
similarity search with its 0.74/0.75 ratio cutoffs, and intraline
markup); ratios are computed in exact rational arithmetic. -/

/-- An exact nonnegative ratio, kept as an unreduced fraction with a
positive denominator (the embedding computes difflib's similarity ratios
in exact rational arithmetic). -/
structure RatP where
  num : Nat
  den : Nat

/-- Strict comparison of two ratios by cross multiplication. -/
def ratLt (x y : RatP) : Bool := decide (x.num * y.den < y.num * x.den)

/-- The ratio `2*M/T` of `difflib._calculate_ratio` (1 when `T` is 0). -/
def calcRatQ (nmatches total : Nat) : RatP :=
  if total = 0 then ⟨1, 1⟩ else ⟨2 * nmatches, total⟩

/-- The index list `b2j[x]`: positions of `x` in `b`, junk excluded, and
popular elements dropped under the autojunk heuristic (sequences of at
least 200 elements). -/
def eltIndices [BEq α] (b : List α) (junk : α → Bool) (autojunk : Bool) (x : α) : List Nat :=
  if junk x then []
  else
    let idxs := (b.enum.filter (fun p => p.2 == x)).map Prod.fst
    if autojunk && decide (200 ≤ b.length) && decide (b.length / 100 + 1 < idxs.length) then []
    else idxs

/-- The running best match of `find_longest_match`. -/
structure FlmBest where
  besti : Nat
  bestj : Nat
  bestsize : Nat

/-- Lookup in the `j2len` map of `find_longest_match` (default 0). -/
def j2lenGet (m : List (Nat × Nat)) (j : Nat) : Nat :=
  match m.find? (fun p => p.1 == j) with
  | some p => p.2
  | Option.none => 0

/-- The inner loop of `find_longest_match` over the positions of `a[i]`
inside `b`: extend runs recorded in `j2len` and track the longest. -/
def flmProcessJs (i : Nat) : List Nat → List (Nat × Nat) → List (Nat × Nat) → FlmBest →
    List (Nat × Nat) × FlmBest
  | [], _, newj2len, best => (newj2len, best)
  | j :: rest, j2len, newj2len, best =>
    let k := (if j = 0 then 0 else j2lenGet j2len (j - 1)) + 1
    let best := if decide (best.bestsize < k) then ⟨i + 1 - k, j + 1 - k, k⟩ else best
    flmProcessJs i rest j2len ((j, k) :: newj2len) best

/-- The outer loop of `find_longest_match` over `i` in `[alo, ahi)`. -/
def flmOuter [BEq α] [Inhabited α] (a b : List α) (junk : α → Bool) (autojunk : Bool)
    (blo bhi : Nat) : List Nat → List (Nat × Nat) → FlmBest → FlmBest
  | [], _, best => best
  | i :: rest, j2len, best =>
    let js := ((eltIndices b junk autojunk (a.getD i default)).filter
      (fun j => decide (blo ≤ j))).takeWhile (fun j => decide (j < bhi))
    let (newj2len, best) := flmProcessJs i js j2len [] best
    flmOuter a b junk autojunk blo bhi rest newj2len best

/-- Backward extension loop of `find_longest_match` over elements whose
junk status matches `cond`. -/
def extendBack [BEq α] [Inhabited α] (a b : List α) (cond : α → Bool) (alo blo : Nat) :
    Nat → FlmBest → FlmBest
  | 0, best => best
  | fuel + 1, best =>
    if decide (alo < best.besti) && decide (blo < best.bestj) &&
        cond (b.getD (best.bestj - 1) default) &&
        (a.getD (best.besti - 1) default == b.getD (best.bestj - 1) default) then
      extendBack a b cond alo blo fuel ⟨best.besti - 1, best.bestj - 1, best.bestsize + 1⟩
    else best

/-- Forward extension loop of `find_longest_match` over elements whose junk
status matches `cond`. -/
def extendFwd [BEq α] [Inhabited α] (a b : List α) (cond : α → Bool) (ahi bhi : Nat) :
    Nat → FlmBest → FlmBest
  | 0, best => best
  | fuel + 1, best =>
    if decide (best.besti + best.bestsize < ahi) && decide (best.bestj + best.bestsize < bhi) &&
        cond (b.getD (best.bestj + best.bestsize) default) &&
        (a.getD (best.besti + best.bestsize) default ==
          b.getD (best.bestj + best.bestsize) default) then
      extendFwd a b cond ahi bhi fuel ⟨best.besti, best.bestj, best.bestsize + 1⟩
    else best

/-- `SequenceMatcher.find_longest_match` on `a[alo:ahi]` and `b[blo:bhi]`:
the dynamic programme over interesting elements followed by the four
extension loops (first non-junk, then junk, on both ends). -/
def findLongestMatch [BEq α] [Inhabited α] (a b : List α) (junk : α → Bool) (autojunk : Bool)
    (alo ahi blo bhi : Nat) : FlmBest :=
  let best := flmOuter a b junk autojunk blo bhi (List.range' alo (ahi - alo)) [] ⟨alo, blo, 0⟩
  let best := extendBack a b (fun x => !(junk x)) alo blo best.besti best
  let best := extendFwd a b (fun x => !(junk x)) ahi bhi ahi best
  let best := extendBack a b junk alo blo best.besti best
  let best := extendFwd a b junk ahi bhi ahi best
  best

/-- The queue-driven recursion of `get_matching_blocks`; the fuel is a
strict bound on the number of loop iterations. -/
def gmbLoop [BEq α] [Inhabited α] (a b : List α) (junk : α → Bool) (autojunk : Bool) :
    Nat → List (Nat × Nat × Nat × Nat) → List (Nat × Nat × Nat) → List (Nat × Nat × Nat)
  | 0, _, acc => acc
  | _ + 1, [], acc => acc
  | fuel + 1, (alo, ahi, blo, bhi) :: rest, acc =>
    let m := findLongestMatch a b junk autojunk alo ahi blo bhi
    if m.bestsize ≠ 0 then
      let acc := (m.besti, m.bestj, m.bestsize) :: acc
      let left : List (Nat × Nat × Nat × Nat) :=
        if decide (alo < m.besti) && decide (blo < m.bestj) then [(alo, m.besti, blo, m.bestj)]
        else []
      let right : List (Nat × Nat × Nat × Nat) :=
        if decide (m.besti + m.bestsize < ahi) && decide (m.bestj + m.bestsize < bhi) then
          [(m.besti + m.bestsize, ahi, m.bestj + m.bestsize, bhi)]
        else []
      gmbLoop a b junk autojunk fuel (right ++ left ++ rest) acc
    else gmbLoop a b junk autojunk fuel rest acc

/-- Lexicographic order on matching blocks, as `list.sort` uses on the
Python triples. -/
def blockLe (x y : Nat × Nat × Nat) : Bool :=
  decide (x.1 < y.1) || (x.1 == y.1 &&
    (decide (x.2.1 < y.2.1) || (x.2.1 == y.2.1 && decide (x.2.2 ≤ y.2.2))))

/-- Stable insertion of a block into a sorted block list. -/
def insertBlock (x : Nat × Nat × Nat) : List (Nat × Nat × Nat) → List (Nat × Nat × Nat)
  | [] => [x]
  | y :: rest => if blockLe x y then x :: y :: rest else y :: insertBlock x rest

/-- Stable sort of the collected matching blocks. -/
def sortBlocks : List (Nat × Nat × Nat) → List (Nat × Nat × Nat)
  | [] => []
  | x :: rest => insertBlock x (sortBlocks rest)

/-- The adjacent-block merge at the end of `get_matching_blocks`. -/
def mergeAdjacent : List (Nat × Nat × Nat) → Nat × Nat × Nat → List (Nat × Nat × Nat)
  | [], (i1, j1, k1) => if k1 ≠ 0 then [(i1, j1, k1)] else []
  | (i2, j2, k2) :: rest, (i1, j1, k1) =>
    if i1 + k1 == i2 && j1 + k1 == j2 then mergeAdjacent rest (i1, j1, k1 + k2)
    else (if k1 ≠ 0 then [(i1, j1, k1)] else []) ++ mergeAdjacent rest (i2, j2, k2)

/-- `SequenceMatcher.get_matching_blocks`: maximal matching blocks sorted by
position, adjacent blocks merged, closed by the `(len(a), len(b), 0)`
sentinel. -/
def getMatchingBlocks [BEq α] [Inhabited α] (a b : List α) (junk : α → Bool) (autojunk : Bool) :
    List (Nat × Nat × Nat) :=
  let blocks := gmbLoop a b junk autojunk (2 * (a.length + b.length) + 4)
    [(0, a.length, 0, b.length)] []
  mergeAdjacent (sortBlocks blocks) (0, 0, 0) ++ [(a.length, b.length, 0)]

/-- Opcode tags of `SequenceMatcher.get_opcodes`. -/
inductive OpTag
  | replace
  | delete
  | insert
  | equal

/-- The opcode construction loop over the matching blocks. -/
def opcodesLoop : List (Nat × Nat × Nat) → Nat → Nat → List (OpTag × Nat × Nat × Nat × Nat)
  | [], _, _ => []
  | (ai, bj, size) :: rest, i, j =>
    let pre : List (OpTag × Nat × Nat × Nat × Nat) :=
      if decide (i < ai) && decide (j < bj) then [(.replace, i, ai, j, bj)]
      else if decide (i < ai) then [(.delete, i, ai, j, bj)]
      else if decide (j < bj) then [(.insert, i, ai, j, bj)]
      else []
    let eqOp : List (OpTag × Nat × Nat × Nat × Nat) :=
      if size ≠ 0 then [(.equal, ai, ai + size, bj, bj + size)] else []
    pre ++ eqOp ++ opcodesLoop rest (ai + size) (bj + size)

/-- `SequenceMatcher.get_opcodes`. -/
def getOpcodes [BEq α] [Inhabited α] (a b : List α) (junk : α → Bool) (autojunk : Bool) :
    List (OpTag × Nat × Nat × Nat × Nat) :=
  opcodesLoop (getMatchingBlocks a b junk autojunk) 0 0

/-- Number of occurrences of a character in a list. -/
def countIn (l : List Char) (c : Char) : Nat := (l.filter (fun x => x == c)).length

/-- The availability-counting loop of `SequenceMatcher.quick_ratio`. -/
def quickRatAux (bC : List Char) : List Char → List (Char × Int) → Nat → Nat
  | [], _, nmatches => nmatches
  | c :: rest, avail, nmatches =>
    let numb : Int := ((avail.find? (fun p => p.1 == c)).map Prod.snd).getD (countIn bC c : Int)
    let nmatches := if numb > 0 then nmatches + 1 else nmatches
    quickRatAux bC rest ((c, numb - 1) :: avail) nmatches

/-- `SequenceMatcher.quick_ratio` (multiset character overlap; junk is not
excluded here). -/
def quickRatQ (aC bC : List Char) : RatP :=
  calcRatQ (quickRatAux bC aC [] 0) (aC.length + bC.length)

/-- `SequenceMatcher.real_quick_ratio`. -/
def realQuickRatQ (aC bC : List Char) : RatP :=
  calcRatQ (min aC.length bC.length) (aC.length + bC.length)

/-- Total size of the matching blocks. -/
def matchSum (blocks : List (Nat × Nat × Nat)) : Nat :=
  (blocks.map (fun b => b.2.2)).foldl (· + ·) 0

/-- `SequenceMatcher.ratio` at the character level; a plain `Differ()` has
no character junk (its `charjunk` default is `None`). -/
def ratQ (aC bC : List Char) : RatP :=
  calcRatQ (matchSum (getMatchingBlocks aC bC (fun _ => false) true)) (aC.length + bC.length)

/-- `Differ._dump`: tag every line of `x[lo:hi]` as `"{tag} {line}"`. -/
def dumpTag (tag : String) (x : List String) (lo hi : Nat) : List String :=
  (List.range' lo (hi - lo)).map (fun i => tag ++ " " ++ x.getD i default)

/-- `Differ._plain_replace`: dump the shorter block first. -/
def plainReplace (a : List String) (alo ahi : Nat) (b : List String) (blo bhi : Nat) :
    List String :=
  if decide (bhi - blo < ahi - alo) then dumpTag "+" b blo bhi ++ dumpTag "-" a alo ahi
  else dumpTag "-" a alo ahi ++ dumpTag "+" b blo bhi

/-- Running state of the `_fancy_replace` similarity search. -/
structure FancyBest where
  bestRatQ : RatP
  bestij : Option (Nat × Nat)
  eqij : Option (Nat × Nat)

/-- Inner loop of the `_fancy_replace` search: scan `i` over `[alo, ahi)`
against a fixed `b[j]`, remembering the first equal pair and the best
ratio pair above the running bound. -/
def fancyScanI (aL : List String) (bj : String) (j : Nat) : List Nat → FancyBest → FancyBest
  | [], st => st
  | i :: rest, st =>
    let ai := aL.getD i default
    if ai == bj then
      let st := if st.eqij.isNone then { st with eqij := some (i, j) } else st
      fancyScanI aL bj j rest st
    else
      let aC := ai.data
      let bC := bj.data
      if ratLt st.bestRatQ (realQuickRatQ aC bC) && ratLt st.bestRatQ (quickRatQ aC bC) &&
          ratLt st.bestRatQ (ratQ aC bC) then
        fancyScanI aL bj j rest { st with bestRatQ := ratQ aC bC, bestij := some (i, j) }
      else fancyScanI aL bj j rest st

/-- Outer loop of the `_fancy_replace` search over `j` in `[blo, bhi)`. -/
def fancyScanJ (aL bL : List String) (alo ahi : Nat) : List Nat → FancyBest → FancyBest
  | [], st => st
  | j :: rest, st =>
    let st := fancyScanI aL (bL.getD j default) j (List.range' alo (ahi - alo)) st
    fancyScanJ aL bL alo ahi rest st

/-- Intraline tag strings built from the character-level opcodes
(`^` replace, `-` delete, `+` insert, blank equal). -/
def buildTags : List (OpTag × Nat × Nat × Nat × Nat) → String × String → String × String
  | [], p => p
  | (tag, ai1, ai2, bj1, bj2) :: rest, (atags, btags) =>
    let la := ai2 - ai1
    let lb := bj2 - bj1
    let p :=
      match tag with
      | .replace => (atags ++ String.mk (List.replicate la '^'),
          btags ++ String.mk (List.replicate lb '^'))
      | .delete => (atags ++ String.mk (List.replicate la '-'), btags)
      | .insert => (atags, btags ++ String.mk (List.replicate lb '+'))
      | .equal => (atags ++ String.mk (List.replicate la ' '),
          btags ++ String.mk (List.replicate lb ' '))
    buildTags rest p

/-- `difflib._keep_original_ws`: keep original whitespace where the tag
column is blank. -/
def keepOriginalWs (s tagS : String) : String :=
  String.mk ((s.data.zip tagS.data).map
    (fun p => if p.2 == ' ' && p.1.isWhitespace then p.1 else p.2))

/-- `Differ._qformat`: the two tagged lines with their optional `?` guide
lines. -/
def qformat (aline bline atags btags : String) : List String :=
  let atags := pyRstrip (keepOriginalWs aline atags)
  let btags := pyRstrip (keepOriginalWs bline btags)
  (["- " ++ aline] ++ (if atags == "" then [] else ["? " ++ atags ++ "\n"])) ++
    (["+ " ++ bline] ++ (if btags == "" then [] else ["? " ++ btags ++ "\n"]))

/-- `Differ._fancy_replace` (with `_fancy_helper` inlined): search for the
most similar line pair; below the cutoff fall back to a plain replace
(unless an identical pair synchronizes the block), otherwise emit the
recursive left part, the intraline-marked pair, and the recursive right
part. -/
def fancyReplace (aL bL : List String) : Nat → Nat → Nat → Nat → Nat → List String
  | 0, _, _, _, _ => []
  | fuel + 1, alo, ahi, blo, bhi =>
    let helper := fun (al ah bl bh : Nat) =>
      if decide (al < ah) then
        if decide (bl < bh) then fancyReplace aL bL fuel al ah bl bh
        else dumpTag "-" aL al ah
      else if decide (bl < bh) then dumpTag "+" bL bl bh
      else []
    let st := fancyScanJ aL bL alo ahi (List.range' blo (bhi - blo))
      ⟨⟨74, 100⟩, Option.none, Option.none⟩
    if ratLt st.bestRatQ ⟨3, 4⟩ then
      match st.eqij with
      | Option.none => plainReplace aL alo ahi bL blo bhi
      | some (ei, ej) =>
        helper alo ei blo ej ++ ["  " ++ aL.getD ei default] ++ helper (ei + 1) ahi (ej + 1) bhi
    else
      match st.bestij with
      | some (bi, bj) =>
        let aelt := aL.getD bi default
        let belt := bL.getD bj default
        let ops := getOpcodes aelt.data belt.data (fun _ => false) true
        let tags := buildTags ops ("", "")
        helper alo bi blo bj ++ qformat aelt belt tags.1 tags.2 ++
          helper (bi + 1) ahi (bj + 1) bhi
      | Option.none => plainReplace aL alo ahi bL blo bhi

/-- `Differ().compare` on two line lists: line-level opcodes (no line junk)
dispatched to dumps and fancy replaces. -/
def differCompare (aL bL : List String) : List String :=
  ((getOpcodes aL bL (fun _ => false) true).map (fun op =>
    match op with
    | (.replace, alo, ahi, blo, bhi) =>
      fancyReplace aL bL (aL.length + bL.length + 2) alo ahi blo bhi
    | (.delete, alo, ahi, _, _) => dumpTag "-" aL alo ahi
    | (.insert, _, _, blo, bhi) => dumpTag "+" bL blo bhi
    | (.equal, alo, ahi, _, _) => dumpTag " " aL alo ahi)).flatten

/-- Whether a character terminates a line for `str.splitlines`. -/
def isLineBoundary (c : Char) : Bool :=
  c == '\n' || c == Char.ofNat 0x0b || c == Char.ofNat 0x0c || c == Char.ofNat 0x1c ||
    c == Char.ofNat 0x1d || c == Char.ofNat 0x1e || c == Char.ofNat 0x85 ||
    c == Char.ofNat 0x2028 || c == Char.ofNat 0x2029

/-- Worker of `pySplitlines`, accumulating the current line reversed; the
two-character boundary carriage-return line-feed closes a single line. -/
def splitlinesAux : List Char → List Char → List String
  | [], cur => if cur.isEmpty then [] else [String.mk cur.reverse]
  | '\r' :: '\n' :: rest2, cur => String.mk cur.reverse :: splitlinesAux rest2 []
  | c :: rest, cur =>
    if c == '\r' then String.mk cur.reverse :: splitlinesAux rest []
    else if isLineBoundary c then String.mk cur.reverse :: splitlinesAux rest []
    else splitlinesAux rest (c :: cur)

/-- Python `str.splitlines()`. -/
def pySplitlines (s : String) : List String := splitlinesAux s.data []

/-! ### DiffEngine: `compare_templates` / `assert_templates` -/

/-- The supported template kinds. -/
def supported_templates : List String := ["job-template", "template", "partition-table"]

/-- Message of `IncorrectTemplateTypeException` (the Python format call
renders the tuple of supported kinds with `repr`). -/
def templateTypeErrMsg : String :=
  "The Template Type has to be one of (" ++
    String.intercalate ", " (supported_templates.map (fun s => sq ++ s ++ sq)) ++ ")"

/-- Python iteration over a `find_templatestore` result: a listing yields
its ids, a `(path, content)` tuple yields its two fields, the sentinel
string yields its characters. -/
def iterTemplResult : TemplResult → List String
  | .ids l => l
  | .found p c => [p, c]
  | .missing m => m.data.map (fun c => c.toString)

/-- Python unpacking `a, b = r` of a `find_templatestore` result: a
`(path, content)` tuple unpacks; the sentinel string (or a listing) only
unpacks when it has exactly two elements, otherwise `ValueError` is
raised. -/
def unpackTemplResult : TemplResult → Except PyErr (String × String)
  | .found p c => .ok (p, c)
  | .missing m =>
    match m.data with
    | [c1, c2] => .ok (c1.toString, c2.toString)
    | l =>
      if decide (2 < l.length) then .error (.valueError "too many values to unpack (expected 2)")
      else .error (.valueError ("not enough values to unpack (expected 2, got " ++
        toString l.length ++ ")"))
  | .ids l =>
    match l with
    | [x, y] => .ok (x, y)
    | l =>
      if decide (2 < l.length) then .error (.valueError "too many values to unpack (expected 2)")
      else .error (.valueError ("not enough values to unpack (expected 2, got " ++
        toString l.length ++ ")"))

/-- Resolution of a template path against the two stores, used to model
`filecmp.cmp` reading the two files back. -/
def resolveTemplatePath (preDir postDir : TemplateDir) (template_type p : String) :
    Option String :=
  if strHasPre ("preupgrade_templates/" ++ template_type ++ "/") p then
    lookupFile preDir (strDropN p ("preupgrade_templates/" ++ template_type ++ "/").length)
  else if strHasPre ("postupgrade_templates/" ++ template_type ++ "/") p then
    lookupFile postDir (strDropN p ("postupgrade_templates/" ++ template_type ++ "/").length)
  else Option.none

/-- `filecmp.cmp` on two template paths, modelled as byte-wise content
comparison (the stat-signature shortcut of the shallow mode is abstracted
away); a path that resolves to no stored file raises. -/
def filecmpCmp (preDir postDir : TemplateDir) (template_type p1 p2 : String) :
    Except PyErr Bool :=
  match resolveTemplatePath preDir postDir template_type p1,
      resolveTemplatePath preDir postDir template_type p2 with
  | some c1, some c2 => .ok (c1 == c2)
  | _, _ => .error (.fileNotFound "No such file or directory")

/-- The body of the `compare_templates` loop for one listed template id. -/
def compare_templates_case (from_version to_version : String) (preDir postDir : TemplateDir)
    (template_type template_id : String) : Except PyErr (String × String) :=
  match unpackTemplResult (find_templatestore preDir "preupgrade" template_type
      (some template_id)) with
  | .error e => .error e
  | .ok (prefile, pre_template) =>
    match unpackTemplResult (find_templatestore postDir "postupgrade" template_type
        (some template_id)) with
    | .error e => .error e
    | .ok (postfile, post_template) =>
      if strSub "missing" pre_template || strSub "missing" post_template then
        let culprit := if strSub "missing" pre_template then prefile else postfile
        let culprit_ver :=
          if strSub "missing" pre_template then " missing in Version " ++ from_version
          else " missing in Version " ++ to_version
        .ok (culprit, culprit_ver)
      else
        match filecmpCmp preDir postDir template_type prefile postfile with
        | .error e => .error e
        | .ok same => if same then .ok ("true", "true") else .ok (pre_template, post_template)

/-- `compare_templates`: reject unsupported kinds, then walk the ids listed
in the preupgrade store and compare each template across the two stores. -/
def compare_templates (from_version to_version : String) (preDir postDir : TemplateDir)
    (template_type : String) : Except PyErr (List (String × String)) :=
  if !(supported_templates.contains template_type) then
    .error (.incorrectTemplateType templateTypeErrMsg)
  else
    (iterTemplResult (find_templatestore preDir "preupgrade" template_type Option.none)).mapM
      (compare_templates_case from_version to_version preDir postDir template_type)

/-- `assert_templates`: diff the two bodies line by line, collect the added
and removed lines, and accept as soon as one changed line occurs inside
one of the approved variant rules for the kind; otherwise report the full
diff (the second component models the `pprint` output) and reject.
`template_varients` stands for the table imported from the variants
module. -/
def assert_templates (template_varients : String → List String) (template_type : String)
    (pre post : String) : Bool × List String :=
  let difference := differCompare (pySplitlines pre) (pySplitlines post)
  let added_elements := difference.filter (fun l => strHasPre "+" l)
  let removed_elements := difference.filter (fun l => strHasPre "-" l)
  if (added_elements ++ removed_elements).any
      (fun changed_element => (template_varients template_type).any
        (fun expected_varients => strSub changed_element expected_varients)) then
    (true, [])
  else (false, difference)

/-! ### Helper lemmas -/

/-- String equality follows from equality of the character data. -/
theorem strExt : ∀ {a b : String}, a.data = b.data → a = b
  | ⟨_⟩, ⟨_⟩, rfl => rfl

/-- The character data of a concatenation. -/
theorem strData_append (a b : String) : (a ++ b).data = a.data ++ b.data := by
  cases a; cases b; rfl

/-- String concatenation is associative. -/
theorem strAppend_assoc (a b c : String) : (a ++ b) ++ c = a ++ (b ++ c) := by
  apply strExt
  simp [strData_append, List.append_assoc]

/-- A list is a leading segment of itself followed by anything. -/
theorem listHasPre_append [BEq α] [LawfulBEq α] (l m : List α) : listHasPre l (l ++ m) = true := by
  induction l with
  | nil => rfl
  | cons a t ih => simp [listHasPre, ih]

/-- A string is a leading segment of itself followed by anything. -/
theorem strHasPre_of_append (a b : String) : strHasPre a (a ++ b) = true := by
  unfold strHasPre
  rw [strData_append]
  exact listHasPre_append a.data b.data

/-- Dropping the length of the first summand of a concatenation leaves the
second summand. -/
theorem strDropN_of_append (a b : String) : strDropN (a ++ b) a.length = b := by
  unfold strDropN
  rw [strData_append]
  have hlen : a.length = a.data.length := rfl
  rw [hlen, List.drop_left]

/-- An id is good for the `.erb` round trip when it is nonempty and neither
its first nor its last character belongs to the stripped character set. -/
def goodErbId (tid : String) : Bool :=
  (match tid.data.head? with
   | some c => !(charIn erbChars c)
   | Option.none => false) &&
  (match tid.data.getLast? with
   | some c => !(charIn erbChars c)
   | Option.none => false)

/-- Dropping the strip characters from the reversed extension is a no-op
continuation. -/
theorem dropWhile_erb_front (r : List Char) :
    List.dropWhile (charIn erbChars) (['b', 'r', 'e', '.'] ++ r) =
      List.dropWhile (charIn erbChars) r := rfl

/-- The listing round trip on a good id: `strip('.erb')` undoes appending
the `.erb` extension. -/
theorem stripChars_erb_of_good (tid : String) (h : goodErbId tid = true) :
    pyStripChars (tid ++ ".erb") erbChars = tid := by
  obtain ⟨l⟩ := tid
  match l, h with
  | c :: t, h =>
    rw [goodErbId, Bool.and_eq_true] at h
    obtain ⟨hh, hl⟩ := h
    have hc : charIn erbChars c = false := by
      simpa using hh
    have hdata : ((String.mk (c :: t)) ++ ".erb").data = c :: (t ++ ['.', 'e', 'r', 'b']) := by
      rw [strData_append]; rfl
    unfold pyStripChars
    rw [hdata, List.dropWhile_cons, hc]
    simp only [Bool.false_eq_true, if_false]
    have hrev : (c :: (t ++ ['.', 'e', 'r', 'b'])).reverse =
        ['b', 'r', 'e', '.'] ++ (c :: t).reverse := by
      simp [List.reverse_cons, List.reverse_append, List.append_assoc]
    rw [hrev, dropWhile_erb_front]
    rcases hconsrev : (c :: t).reverse with _ | ⟨d, s⟩
    · exact absurd (congrArg List.length hconsrev) (by simp)
    · have hd : (c :: t).getLast? = some d := by
        rw [← List.head?_reverse, hconsrev]; rfl
      have hdc : charIn erbChars d = false := by
        rw [hd] at hl
        simpa using hl
      rw [List.dropWhile_cons, hdc]
      simp only [Bool.false_eq_true, if_false]
      rw [← hconsrev, List.reverse_reverse]

/-- A good id is not the empty string (under boolean string equality). -/
theorem goodErbId_ne_empty (tid : String) (h : goodErbId tid = true) : (tid == "") = false := by
  rcases htid : tid with ⟨_ | ⟨c, t⟩⟩
  · rw [htid] at h
    simp [goodErbId] at h
  · rfl

/-! ### C1 -/

/-- C1: for a template id that exists before the upgrade (here "a" of kind
"template") but is gone afterwards, the claim predicts the pair
`(culprit, " missing in Version 6.10")`; the code instead aborts with the
`ValueError` raised when the missing-template sentinel string is unpacked
into the `(file, body)` tuple, so the intended missing-version branch is
unreachable. -/
theorem c1_missing_template_unpack_error :
    compare_templates "6.9" "6.10" ⟨[("a.erb", "hello")]⟩ ⟨[]⟩ "template" =
      .error (.valueError "too many values to unpack (expected 2)") := by
  rfl

/-! ### C3 -/

/-- C3 counterexample: storing exactly the id "boot" and listing the store
returns ["oot"] — `strip('.erb')` removes the leading "b" as a member of
the stripped character set — so the listing is not the stored id set. -/
theorem c3_counterexample :
    find_templatestore (template_writer ["boot"] (fun _ => "x")) "preupgrade" "template"
        Option.none = .ids ["oot"] ∧
      "boot" ∉ (["oot"] : List String) := by
  exact ⟨rfl, by decide⟩

/-- C3 (amended): for every state, kind and finite id set stored through the
template writer, the listing returns exactly the stored ids — with no
duplicates and order as enumerated — provided no id starts or ends with
one of the characters of ".erb" (the counterexample forces this proviso,
since the listing strips that character set from both ends of each file
name). -/
theorem c3_list_ids_roundtrip (state template_type : String) (ids : List String)
    (content : String → String) (h : ∀ id ∈ ids, goodErbId id = true) :
    find_templatestore (template_writer ids content) state template_type Option.none =
      .ids ids := by
  simp only [find_templatestore, template_writer, Option.getD]
  rw [if_pos (by rfl)]
  rw [List.map_map]
  have hmap : ids.map ((fun f : String × String => pyStripChars f.1 erbChars) ∘
      (fun tid => (tid ++ ".erb", content tid))) = ids.map id := by
    apply List.map_congr_left
    intro a ha
    exact stripChars_erb_of_good a (h a ha)
  rw [hmap, List.map_id]

/-- C3 witness. -/
theorem c3_list_ids_roundtrip_witness :
    (∀ id ∈ ["alpha", "two"], goodErbId id = true) ∧
      find_templatestore (template_writer ["alpha", "two"] (fun _ => "x")) "preupgrade"
        "job-template" Option.none = .ids ["alpha", "two"] := by
  refine ⟨by decide, c3_list_ids_roundtrip "preupgrade" "job-template" ["alpha", "two"]
    (fun _ => "x") (by decide)⟩

/-! ### C4 and C10: the search-criteria locator -/

/-- No entity matching the criteria yields the entity-missing sentinel. -/
theorem findCriteriaLoop_no_match (sk : String) (sv : PyVal) (attr : String) :
    ∀ ds : List (List (String × PyVal)), (∀ d ∈ ds, entMatches sk sv d = false) →
      findCriteriaLoop sk sv attr (ds.map .dict) = .ok (.str (entityMissingMsg sk sv))
  | [], _ => rfl
  | d :: rest, h => by
    have hd : entMatches sk sv d = false := h d (List.mem_cons_self d rest)
    simp only [List.map_cons, findCriteriaLoop, pyItems, hd, Bool.false_eq_true, if_false]
    exact findCriteriaLoop_no_match sk sv attr rest
      (fun e he => h e (List.mem_cons_of_mem d he))

/-- The first matching entity decides the result: its `attr` value when
present, the attribute-missing sentinel otherwise. -/
theorem findCriteriaLoop_first_match (sk : String) (sv : PyVal) (attr : String) :
    ∀ (ds₁ : List (List (String × PyVal))) (d : List (String × PyVal))
      (ds₂ : List (List (String × PyVal))),
      (∀ e ∈ ds₁, entMatches sk sv e = false) → entMatches sk sv d = true →
      findCriteriaLoop sk sv attr ((ds₁ ++ d :: ds₂).map .dict) =
        .ok ((assocLookup d attr).getD (.str (attrMissingMsg attr sk sv)))
  | [], d, ds₂, _, hd => by
    simp only [List.nil_append, List.map_cons, findCriteriaLoop, pyItems, hd, if_true]
  | e :: rest, d, ds₂, h₁, hd => by
    have he : entMatches sk sv e = false := h₁ e (List.mem_cons_self e rest)
    simp only [List.cons_append, List.map_cons, findCriteriaLoop, pyItems, he,
      Bool.false_eq_true, if_false]
    exact findCriteriaLoop_first_match sk sv attr rest d ds₂
      (fun x hx => h₁ x (List.mem_cons_of_mem e hx)) hd

/-- Every successful result of the loop is one of the two sentinels or a
stored attribute value of a matching entity. -/
theorem findCriteriaLoop_shapes (sk : String) (sv : PyVal) (attr : String) :
    ∀ (ds : List (List (String × PyVal))) (v : PyVal),
      findCriteriaLoop sk sv attr (ds.map .dict) = .ok v →
      v = .str (entityMissingMsg sk sv) ∨ v = .str (attrMissingMsg attr sk sv) ∨
        ∃ d ∈ ds, entMatches sk sv d = true ∧ assocLookup d attr = some v
  | [], v, hv => by
    left
    simpa [findCriteriaLoop] using hv.symm
  | d :: rest, v, hv => by
    by_cases hd : entMatches sk sv d = true
    · simp only [List.map_cons, findCriteriaLoop, pyItems, hd, if_true] at hv
      rcases hlk : assocLookup d attr with _ | w
      · right; left
        rw [hlk] at hv
        exact (Except.ok.inj hv).symm
      · right; right
        rw [hlk] at hv
        simp only [Option.getD_some] at hv
        exact ⟨d, List.mem_cons_self d rest, hd, by rw [hlk, Except.ok.inj hv]⟩
    · have hd' : entMatches sk sv d = false := by
        cases hmm : entMatches sk sv d
        · rfl
        · exact absurd hmm hd
      simp only [List.map_cons, findCriteriaLoop, pyItems, hd', Bool.false_eq_true,
        if_false] at hv
      rcases findCriteriaLoop_shapes sk sv attr rest v hv with h | h | ⟨e, he, hm, hl⟩
      · exact Or.inl h
      · exact Or.inr (Or.inl h)
      · exact Or.inr (Or.inr ⟨e, List.mem_cons_of_mem d he, hm, hl⟩)

/-- C4: for every entity list, singleton search criteria and attribute,
`_find_on_list_of_dicts_using_search_criteria` (a) yields the sentinel
"key : value entity missing" when no entity's key attribute stringifies to
the value, (b) yields the sentinel "attr attribute missing for key :
value" when the first matching entity lacks the attribute, and (c) every
other successful outcome is an attribute value stored on a matching
entity, so the two sentinels are the only not-found result shapes. -/
theorem c4_criteria_sentinels (ds : List (List (String × PyVal))) (sk : String) (sv : PyVal)
    (attr : String) :
    ((∀ d ∈ ds, entMatches sk sv d = false) →
      find_on_list_of_dicts_using_search_criteria (ds.map .dict) [(sk, sv)] attr =
        .ok (.str (entityMissingMsg sk sv))) ∧
    (∀ (ds₁ : List (List (String × PyVal))) (d : List (String × PyVal))
        (ds₂ : List (List (String × PyVal))),
      ds = ds₁ ++ d :: ds₂ → (∀ e ∈ ds₁, entMatches sk sv e = false) →
      entMatches sk sv d = true → assocLookup d attr = Option.none →
      find_on_list_of_dicts_using_search_criteria (ds.map .dict) [(sk, sv)] attr =
        .ok (.str (attrMissingMsg attr sk sv))) ∧
    (∀ v : PyVal,
      find_on_list_of_dicts_using_search_criteria (ds.map .dict) [(sk, sv)] attr = .ok v →
      v = .str (entityMissingMsg sk sv) ∨ v = .str (attrMissingMsg attr sk sv) ∨
        ∃ d ∈ ds, entMatches sk sv d = true ∧ assocLookup d attr = some v) := by
  refine ⟨fun h => findCriteriaLoop_no_match sk sv attr ds h, ?_, ?_⟩
  · intro ds₁ d ds₂ hsplit h₁ hd hlk
    rw [hsplit]
    show findCriteriaLoop sk sv attr ((ds₁ ++ d :: ds₂).map .dict) = _
    rw [findCriteriaLoop_first_match sk sv attr ds₁ d ds₂ h₁ hd, hlk]
    rfl
  · intro v hv
    exact findCriteriaLoop_shapes sk sv attr ds v hv

/-- C4 witness. -/
theorem c4_criteria_sentinels_witness :
    ((∀ d ∈ [[("id", PyVal.str "2")]], entMatches "id" (PyVal.str "1") d = false) ∧
      find_on_list_of_dicts_using_search_criteria ([[("id", PyVal.str "2")]].map .dict)
        [("id", PyVal.str "1")] "ip" = .ok (.str (entityMissingMsg "id" (PyVal.str "1")))) ∧
    (entMatches "id" (PyVal.str "1") [("id", PyVal.str "1")] = true ∧
      find_on_list_of_dicts_using_search_criteria ([[("id", PyVal.str "1")]].map .dict)
        [("id", PyVal.str "1")] "ip" =
        .ok (.str (attrMissingMsg "ip" "id" (PyVal.str "1")))) := by
  refine ⟨⟨by decide, (c4_criteria_sentinels [[("id", PyVal.str "2")]] "id" (PyVal.str "1")
    "ip").1 (by decide)⟩, ⟨by decide, ?_⟩⟩
  exact (c4_criteria_sentinels [[("id", PyVal.str "1")]] "id" (PyVal.str "1") "ip").2.1
    [] [("id", PyVal.str "1")] [] rfl (by intro e he; cases he) (by decide) rfl

/-! ### C10 -/

/-- C10: when the first entity matching the criteria carries the attribute
key bound to a stored value, that value is returned as is — in particular
a stored null comes back as the null value, not as any "missing" sentinel
string — so the missing-attribute sentinel arises only when the key is
absent from the matching entity. -/
theorem c10_null_attribute_value (ds₁ : List (List (String × PyVal)))
    (d : List (String × PyVal)) (ds₂ : List (List (String × PyVal))) (sk attr : String)
    (sv : PyVal) (h₁ : ∀ e ∈ ds₁, entMatches sk sv e = false)
    (hd : entMatches sk sv d = true) :
    (∀ v : PyVal, assocLookup d attr = some v →
      find_on_list_of_dicts_using_search_criteria ((ds₁ ++ d :: ds₂).map .dict)
        [(sk, sv)] attr = .ok v) ∧
    (assocLookup d attr = some PyVal.none →
      find_on_list_of_dicts_using_search_criteria ((ds₁ ++ d :: ds₂).map .dict)
        [(sk, sv)] attr = .ok PyVal.none ∧ ∀ s : String, PyVal.none ≠ PyVal.str s) := by
  have hbase : ∀ v : PyVal, assocLookup d attr = some v →
      find_on_list_of_dicts_using_search_criteria ((ds₁ ++ d :: ds₂).map .dict)
        [(sk, sv)] attr = .ok v := by
    intro v hv
    show findCriteriaLoop sk sv attr ((ds₁ ++ d :: ds₂).map .dict) = _
    rw [findCriteriaLoop_first_match sk sv attr ds₁ d ds₂ h₁ hd, hv]
    rfl
  exact ⟨hbase, fun hv => ⟨hbase PyVal.none hv, fun s h => PyVal.noConfusion h⟩⟩

/-- C10 witness. -/
theorem c10_null_attribute_value_witness :
    ((∀ e ∈ ([] : List (List (String × PyVal))),
        entMatches "id" (PyVal.str "1") e = false) ∧
      entMatches "id" (PyVal.str "1") [("id", PyVal.str "1"), ("ip", PyVal.none)] = true ∧
      assocLookup [("id", PyVal.str "1"), ("ip", PyVal.none)] "ip" = some PyVal.none) ∧
    find_on_list_of_dicts_using_search_criteria
      (([] ++ [("id", PyVal.str "1"), ("ip", PyVal.none)] :: []).map PyVal.dict)
      [("id", PyVal.str "1")] "ip" = .ok PyVal.none := by
  refine ⟨⟨(by intro e he; cases he), by decide, rfl⟩, ?_⟩
  exact ((c10_null_attribute_value [] [("id", PyVal.str "1"), ("ip", PyVal.none)] []
    "id" "ip" (PyVal.str "1") (by intro e he; cases he) (by decide)).2 rfl).1

/-! ### C9: the attribute locator -/

/-- The collected per-entity values of a key across a list of dicts. -/
theorem pyGetValues_dicts (k : String) : ∀ ds : List (List (String × PyVal)),
    pyGetValues (ds.map .dict) (some k) =
      .ok (ds.map (fun d => (assocLookup d k).getD .none))
  | [] => rfl
  | d :: rest => by
    simp only [List.map_cons, pyGetValues, pyGet, pyGetValues_dicts k rest]

/-- The first-non-null loop agrees with the library find. -/
theorem firstNotNone_eq_find : ∀ vals : List PyVal,
    firstNotNone vals = vals.find? (fun v => !v.isNoneV)
  | [] => rfl
  | v :: r => by
    cases hv : v.isNoneV
    · simp [firstNotNone, List.find?, hv]
    · simp [firstNotNone, List.find?, hv, firstNotNone_eq_find r]

/-- All-values lookup over a list of entity dicts in normal form. -/
theorem find_all_values (ents : List (List (String × PyVal))) (k : String) :
    find_on_list_of_dicts (ents.map .dict) (some k) true =
      .ok (.list (ents.map (fun d => (assocLookup d k).getD .none))) := by
  unfold find_on_list_of_dicts
  rw [pyGetValues_dicts k ents]
  rfl

/-- C9: over entity dicts, the all-values lookup returns one value per
entity in entity order — each value the stored one, null when the entity
lacks the key — so the result length is the entity count and entities
without the key yield null at their position; the single-value lookup
returns the first non-null value and raises the `KeyError` naming the
attribute when every value is null; and `find_datastore` without criteria
routes a component's entities through the all-values lookup (and the
variant hook, modelled as the identity). -/
theorem c9_find_attribute :
    (∀ (ents : List (List (String × PyVal))) (k : String),
      find_on_list_of_dicts (ents.map .dict) (some k) true =
        .ok (.list (ents.map (fun d => (assocLookup d k).getD .none))) ∧
      (ents.map (fun d => (assocLookup d k).getD .none)).length = ents.length ∧
      ∀ i : Nat, ∀ e ∈ ents[i]?, assocLookup e k = Option.none →
        (ents.map (fun d => (assocLookup d k).getD .none))[i]? = some PyVal.none) ∧
    (∀ (ents : List (List (String × PyVal))) (k : String),
      find_on_list_of_dicts (ents.map .dict) (some k) false =
        match (ents.map (fun d => (assocLookup d k).getD .none)).find?
            (fun v => !v.isNoneV) with
        | some v => .ok v
        | Option.none => .error (.keyError (noDataMsg (some k)))) ∧
    (∀ (ents : List (List (String × PyVal))) (comp attr : String),
      pyLower comp = comp → pyLower attr = attr → (attr == "") = false →
      find_datastore [.dict [(comp, .list (ents.map .dict))]] (some comp) (some attr)
          Option.none =
        .ok (.list (ents.map (fun d => (assocLookup d attr).getD .none)))) := by
  refine ⟨?_, ?_, ?_⟩
  · intro ents k
    refine ⟨find_all_values ents k, List.length_map _ _, ?_⟩
    intro i e he hnull
    rw [List.getElem?_map, Option.mem_def.mp he]
    simp [hnull]
  · intro ents k
    unfold find_on_list_of_dicts
    rw [pyGetValues_dicts k ents, ← firstNotNone_eq_find]
    rfl
  · intro ents comp attr hcomp hattr hne
    have hcd : find_on_list_of_dicts [PyVal.dict [(comp, PyVal.list (ents.map PyVal.dict))]]
        (some comp) false = .ok (PyVal.list (ents.map PyVal.dict)) := by
      simp [find_on_list_of_dicts, pyGetValues, pyGet, assocLookup, firstNotNone,
        PyVal.isNoneV]
    simp only [find_datastore, Option.map_some', hcomp, hattr, hcd, Option.isNone_none,
      attrTruthy, hne, Bool.not_false, Bool.and_self, if_true, find_all_values]
    rfl

/-- C9 witness. -/
theorem c9_find_attribute_witness :
    (pyLower "host" = "host" ∧ pyLower "ip" = "ip" ∧ (("ip" : String) == "") = false) ∧
    find_datastore
        [.dict [("host", .list ([[("ip", PyVal.str "10.1")], [("name", PyVal.str "h2")]].map
          PyVal.dict))]]
        (some "host") (some "ip") Option.none =
      .ok (.list ([[("ip", PyVal.str "10.1")], [("name", PyVal.str "h2")]].map
        (fun d => (assocLookup d "ip").getD PyVal.none))) :=
  ⟨⟨rfl, rfl, rfl⟩, c9_find_attribute.2.2 [[("ip", PyVal.str "10.1")],
    [("name", PyVal.str "h2")]] "host" "ip" rfl rfl rfl⟩

/-! ### C8 -/

/-- C8: every endpoint other than "cli" and "api" makes both the snapshot
write (`set_datastore`) and the snapshot read (`get_datastore`) fail with
`IncorrectEndpointException`, whatever the store contents — in particular
before any file is written or read. -/
theorem c8_invalid_endpoint (endpoint : String)
    (h1 : (endpoint == "cli") = false) (h2 : (endpoint == "api") = false) :
    (∀ (cli_data api_data : List PyVal) (fs : DsFiles) (datastore : String),
      set_datastore cli_data api_data fs datastore endpoint =
        .error (.incorrectEndpoint endpointErrMsg)) ∧
    (∀ (fs : DsFiles) (datastore : String),
      get_datastore fs datastore endpoint = .error (.incorrectEndpoint endpointErrMsg)) := by
  constructor
  · intro cli_data api_data fs datastore
    simp only [set_datastore, h1, h2, Bool.false_eq_true, if_false]
  · intro fs datastore
    have hne1 : endpoint ≠ "cli" := fun h => by rw [h] at h1; simp at h1
    have hne2 : endpoint ≠ "api" := fun h => by rw [h] at h2; simp at h2
    have hc : allowed_ends.contains endpoint = false := by
      simp [allowed_ends, hne1, hne2]
    simp only [get_datastore, hc, Bool.not_false, if_true]

/-- C8 witness. -/
theorem c8_invalid_endpoint_witness :
    ((("ssh" : String) == "cli") = false ∧ (("ssh" : String) == "api") = false) ∧
    set_datastore [] [] ([] : DsFiles) "preupgrade" "ssh" =
      .error (.incorrectEndpoint endpointErrMsg) ∧
    get_datastore ([] : DsFiles) "preupgrade" "ssh" =
      .error (.incorrectEndpoint endpointErrMsg) :=
  ⟨⟨rfl, rfl⟩, (c8_invalid_endpoint "ssh" rfl rfl).1 [] [] [] "preupgrade",
    (c8_invalid_endpoint "ssh" rfl rfl).2 [] "preupgrade"⟩

/-! ### C6 -/

/-- C6: a string attribute argument is used identically on both sides; a
tuple argument selects the before/after names by the positions of the
configured from- and to-versions in the supported-version sequence; any
other argument type makes `compare_postupgrade` fail with the `TypeError`
for every datastore state, hence before any snapshot is read. -/
theorem c6_attribute_arg (st : UpgradeSettings) :
    (∀ s : String, resolve_attrs st (.str s) = .ok (s, s)) ∧
    (∀ (l : List String) (i j : Nat) (pre_attr post_attr : String),
      pyListIndex st.supported_sat_versions st.from_version = .ok i →
      pyListIndex st.supported_sat_versions st.to_version = .ok j →
      pyTupleGet l i = .ok pre_attr → pyTupleGet l j = .ok post_attr →
      resolve_attrs st (.tup l) = .ok (pre_attr, post_attr)) ∧
    (∀ (cli_attributes_key : String → String) (fs : DsFiles) (component : String),
      compare_postupgrade st cli_attributes_key fs component .other =
        .error (.typeError wrongAttrTypeMsg)) := by
  refine ⟨fun s => rfl, ?_, ?_⟩
  · intro l i j pre_attr post_attr hi hj hpi hpj
    simp only [resolve_attrs, hi, hj, hpi, hpj]
  · intro cli_attributes_key fs component
    simp only [compare_postupgrade, resolve_attrs]

/-- C6 witness. -/
theorem c6_attribute_arg_witness :
    (pyListIndex ["6.9", "6.10"] "6.9" = .ok 0 ∧ pyListIndex ["6.9", "6.10"] "6.10" = .ok 1 ∧
      pyTupleGet ["id", "uuid"] 0 = .ok "id" ∧ pyTupleGet ["id", "uuid"] 1 = .ok "uuid") ∧
    resolve_attrs ⟨"cli", ["6.9", "6.10"], "6.9", "6.10"⟩ (.tup ["id", "uuid"]) =
      .ok ("id", "uuid") ∧
    compare_postupgrade ⟨"cli", ["6.9", "6.10"], "6.9", "6.10"⟩ (fun _ => "id")
      ([] : DsFiles) "host" .other = .error (.typeError wrongAttrTypeMsg) :=
  ⟨⟨rfl, rfl, rfl, rfl⟩,
    (c6_attribute_arg ⟨"cli", ["6.9", "6.10"], "6.9", "6.10"⟩).2.1 ["id", "uuid"] 0 1
      "id" "uuid" rfl rfl rfl rfl,
    (c6_attribute_arg ⟨"cli", ["6.9", "6.10"], "6.9", "6.10"⟩).2.2 (fun _ => "id") [] "host"⟩

/-! ### C5 -/

/-- C5 counterexample: an entity whose target attribute holds the unchanged
legitimate value "missing stuff" on both sides — so the claim predicts the
pair `(v, v)` — is collapsed by the correlator into
`("missing stuff", " in preupgrade version")`, because the in-band
missing test is a substring test on the value. -/
theorem c5_counterexample :
    compare_postupgrade ⟨"cli", ["6.9", "6.10"], "6.9", "6.10"⟩ (fun _ => "id")
        [("preupgrade_cli", [.dict [("host", .list [.dict [("id", .str "1"),
            ("ip", .str "missing stuff")]])]]),
         ("postupgrade_cli", [.dict [("host", .list [.dict [("id", .str "1"),
            ("ip", .str "missing stuff")]])]])]
        "host" (.str "ip") =
      .ok [(.str "missing stuff", .str " in preupgrade version")] ∧
    " in preupgrade version" ≠ "missing stuff" := by
  exact ⟨rfl, by decide⟩

/-- C5 (amended): for a key value whose two lookups both return strings,
the correlator pair is `(before, " in preupgrade version")` when the
before result contains "missing" (taking precedence when both do),
`(after, " in postupgrade version")` when only the after result does, and
exactly `(before, after)` otherwise — so unchanged values yield `(v, v)`
only provided the value does not itself contain the substring "missing"
(the counterexample forces this proviso). -/
theorem c5_missing_pairing (predata postdata : List PyVal)
    (component atr pre_attr post_attr : String) (test_case : PyVal) (p q : String)
    (h1 : find_datastore predata (some component) (some pre_attr)
      (some [(atr, .str (pyStr test_case))]) = .ok (.str p))
    (h2 : find_datastore postdata (some component) (some post_attr)
      (some [(atr, .str (pyStr test_case))]) = .ok (.str q)) :
    compare_case predata postdata component atr pre_attr post_attr test_case =
      (if strSub "missing" p then .ok (.str p, .str " in preupgrade version")
       else if strSub "missing" q then .ok (.str q, .str " in postupgrade version")
       else .ok (.str p, .str q)) := by
  unfold compare_case
  rw [h1, h2]
  cases hp : strSub "missing" p
  · cases hq : strSub "missing" q
    · simp [pyStr, hp, hq]
    · simp [pyStr, pyContainsOp, hp, hq]
  · simp [pyStr, pyContainsOp, hp]

/-- C5 witness. -/
theorem c5_missing_pairing_witness :
    (find_datastore [.dict [("host", .list [.dict [("id", .str "1"),
          ("ip", .str "10.0.0.1")]])]] (some "host") (some "ip")
        (some [("id", .str (pyStr (.str "1")))]) = .ok (.str "10.0.0.1") ∧
      find_datastore [.dict [("host", .list [.dict [("id", .str "1"),
          ("ip", .str "10.0.0.2")]])]] (some "host") (some "ip")
        (some [("id", .str (pyStr (.str "1")))]) = .ok (.str "10.0.0.2")) ∧
    compare_case [.dict [("host", .list [.dict [("id", .str "1"), ("ip", .str "10.0.0.1")]])]]
        [.dict [("host", .list [.dict [("id", .str "1"), ("ip", .str "10.0.0.2")]])]]
        "host" "id" "ip" "ip" (.str "1") =
      (if strSub "missing" "10.0.0.1" then
        .ok (.str "10.0.0.1", .str " in preupgrade version")
       else if strSub "missing" "10.0.0.2" then
        .ok (.str "10.0.0.2", .str " in postupgrade version")
       else .ok (.str "10.0.0.1", .str "10.0.0.2")) :=
  ⟨⟨rfl, rfl⟩, c5_missing_pairing _ _ "host" "id" "ip" "ip" (.str "1")
    "10.0.0.1" "10.0.0.2" rfl rfl⟩

/-! ### C2 -/

/-- C2 counterexample: with the variant table holding exactly the rule "+X",
the claim predicts acceptance of the B-to-X line change; the differ
renders changed lines as "+ X" (marker, blank, content), which is not a
substring of "+X", so the diff is rejected and reported. -/
theorem c2_counterexample :
    assert_templates (fun _ => ["+X"]) "template" "A\nB\nC" "A\nX\nC" =
      (false, ["  A", "- B", "+ X", "  C"]) ∧
    (assert_templates (fun _ => ["+X"]) "template" "A\nB\nC" "A\nX\nC").1 ≠ true := by
  exact ⟨rfl, by decide⟩

/-- C2 (amended): with a variant rule equal to "+ X" — matching the
marker-blank-content shape the differ gives changed lines, which the
counterexample forces — the A/B/C versus A/X/C diff is accepted; and for
every template pair whose diff has at least one changed line, an empty
variant table for the kind yields rejection together with the full diff
listing. -/
theorem c2_variant_rules :
    assert_templates (fun _ => ["+ X"]) "template" "A\nB\nC" "A\nX\nC" = (true, []) ∧
    (∀ (template_varients : String → List String) (template_type pre post : String),
      template_varients template_type = [] →
      ((differCompare (pySplitlines pre) (pySplitlines post)).filter
          (fun l => strHasPre "+" l) ++
        (differCompare (pySplitlines pre) (pySplitlines post)).filter
          (fun l => strHasPre "-" l)) ≠ [] →
      assert_templates template_varients template_type pre post =
        (false, differCompare (pySplitlines pre) (pySplitlines post))) := by
  constructor
  · rfl
  · intro template_varients template_type pre post htv _hch
    simp [assert_templates, htv]

/-- C2 witness. -/
theorem c2_variant_rules_witness :
    ((fun _ : String => ([] : List String)) "template" = [] ∧
      ((differCompare (pySplitlines "A\nB\nC") (pySplitlines "A\nX\nC")).filter
          (fun l => strHasPre "+" l) ++
        (differCompare (pySplitlines "A\nB\nC") (pySplitlines "A\nX\nC")).filter
          (fun l => strHasPre "-" l)) ≠ []) ∧
    assert_templates (fun _ => []) "template" "A\nB\nC" "A\nX\nC" =
      (false, differCompare (pySplitlines "A\nB\nC") (pySplitlines "A\nX\nC")) :=
  ⟨⟨rfl, by decide⟩,
    c2_variant_rules.2 (fun _ => []) "template" "A\nB\nC" "A\nX\nC" rfl (by decide)⟩

/-! ### C7 -/

/-- C7 counterexample: two byte-identical template bodies equal to
"missing stuff" — for which the claim predicts the fast-path sentinel
`("true", "true")` — are instead reported through the missing-version
branch, because the in-band missing test is a substring test on the
body. -/
theorem c7_counterexample :
    compare_templates "6.9" "6.10" ⟨[("t.erb", "missing stuff")]⟩
        ⟨[("t.erb", "missing stuff")]⟩ "template" =
      .ok [("preupgrade_templates/template/t.erb", " missing in Version 6.9")] ∧
    " missing in Version 6.9" ≠ "true" := by
  exact ⟨rfl, by decide⟩

/-- Lookup of the single stored file. -/
theorem lookupFile_single (fname c : String) : lookupFile ⟨[(fname, c)]⟩ fname = some c := by
  simp [lookupFile, List.find?]

/-- Finding a stored template id yields its path and body. -/
theorem find_templatestore_single (state template_type tid T : String)
    (hne : (tid == "") = false) (hws : pyStripWs tid = tid) :
    find_templatestore ⟨[(tid ++ ".erb", T)]⟩ state template_type (some tid) =
      .found (state ++ "_templates/" ++ template_type ++ "/" ++ tid ++ ".erb") T := by
  simp only [find_templatestore, Option.getD_some, hne, Bool.false_eq_true, if_false, hws,
    lookupFile_single]

/-- The preupgrade template path splits into the directory and the file
name. -/
theorem pre_path_decomp (template_type tid : String) :
    ("preupgrade" ++ "_templates/" ++ template_type ++ "/" ++ tid ++ ".erb" : String) =
      ("preupgrade_templates/" ++ template_type ++ "/") ++ (tid ++ ".erb") := by
  have hlit : ("preupgrade" ++ "_templates/" : String) = "preupgrade_templates/" := rfl
  rw [hlit, strAppend_assoc ("preupgrade_templates/" ++ template_type ++ "/") tid ".erb"]

/-- The postupgrade template path splits into the directory and the file
name. -/
theorem post_path_decomp (template_type tid : String) :
    ("postupgrade" ++ "_templates/" ++ template_type ++ "/" ++ tid ++ ".erb" : String) =
      ("postupgrade_templates/" ++ template_type ++ "/") ++ (tid ++ ".erb") := by
  have hlit : ("postupgrade" ++ "_templates/" : String) = "postupgrade_templates/" := rfl
  rw [hlit, strAppend_assoc ("postupgrade_templates/" ++ template_type ++ "/") tid ".erb"]

/-- Resolving a preupgrade path reads the preupgrade store. -/
theorem resolve_pre_path (pre post : TemplateDir) (template_type f : String) :
    resolveTemplatePath pre post template_type
        (("preupgrade_templates/" ++ template_type ++ "/") ++ f) = lookupFile pre f := by
  unfold resolveTemplatePath
  rw [strHasPre_of_append]
  simp only [if_true]
  rw [strDropN_of_append]

/-- Resolving a postupgrade path reads the postupgrade store. -/
theorem resolve_post_path (pre post : TemplateDir) (template_type f : String) :
    resolveTemplatePath pre post template_type
        (("postupgrade_templates/" ++ template_type ++ "/") ++ f) = lookupFile post f := by
  unfold resolveTemplatePath
  have hno : strHasPre ("preupgrade_templates/" ++ template_type ++ "/")
      (("postupgrade_templates/" ++ template_type ++ "/") ++ f) = false := by
    unfold strHasPre
    rw [strData_append, strData_append, strData_append, strData_append]
    rfl
  rw [hno]
  simp only [Bool.false_eq_true, if_false]
  rw [strHasPre_of_append]
  simp only [if_true]
  rw [strDropN_of_append]

/-- Comparing the two stored files compares their contents. -/
theorem filecmp_pre_post (pre post : TemplateDir) (template_type f : String) :
    filecmpCmp pre post template_type (("preupgrade_templates/" ++ template_type ++ "/") ++ f)
        (("postupgrade_templates/" ++ template_type ++ "/") ++ f) =
      (match lookupFile pre f, lookupFile post f with
        | some c1, some c2 => .ok (c1 == c2)
        | _, _ => .error (.fileNotFound "No such file or directory")) := by
  unfold filecmpCmp
  rw [resolve_pre_path, resolve_post_path]

/-- Mapping over a single element in the `Except` monad. -/
theorem mapM_singleton {α β : Type} (f : α → Except PyErr β) (x : α) (r : β)
    (h : f x = .ok r) : List.mapM f [x] = .ok [r] := by
  simp [List.mapM, List.mapM.loop, h]

/-- C7 (amended): for a template whose body does not contain the substring
"missing" on either side — the counterexample forces this proviso — the
comparison yields the fast-path sentinel `("true", "true")` when the two
bodies are byte-identical and the literal body pair otherwise. -/
theorem c7_fast_path (from_version to_version template_type tid T Tp : String)
    (htt : supported_templates.contains template_type = true)
    (hid : goodErbId tid = true) (hws : pyStripWs tid = tid)
    (hm1 : strSub "missing" T = false) (hm2 : strSub "missing" Tp = false) :
    compare_templates from_version to_version ⟨[(tid ++ ".erb", T)]⟩ ⟨[(tid ++ ".erb", Tp)]⟩
        template_type =
      .ok [if T == Tp then ("true", "true") else (T, Tp)] := by
  have hne := goodErbId_ne_empty tid hid
  have hcase : compare_templates_case from_version to_version ⟨[(tid ++ ".erb", T)]⟩
      ⟨[(tid ++ ".erb", Tp)]⟩ template_type tid =
      .ok (if T == Tp then ("true", "true") else (T, Tp)) := by
    unfold compare_templates_case
    rw [find_templatestore_single "preupgrade" template_type tid T hne hws,
      find_templatestore_single "postupgrade" template_type tid Tp hne hws]
    simp only [unpackTemplResult]
    rw [hm1, hm2]
    simp only [Bool.or_self, Bool.false_eq_true, if_false]
    rw [pre_path_decomp, post_path_decomp, filecmp_pre_post, lookupFile_single,
      lookupFile_single]
    cases hTT : (T == Tp) <;> simp [hTT]
  have hlist : find_templatestore ⟨[(tid ++ ".erb", T)]⟩ "preupgrade" template_type
      Option.none = .ids [tid] := by
    simp only [find_templatestore, Option.getD_none]
    have htrue : (("" : String) == "") = true := rfl
    rw [if_pos htrue, List.map_cons, List.map_nil, stripChars_erb_of_good tid hid]
  unfold compare_templates
  rw [htt]
  simp only [Bool.not_true, Bool.false_eq_true, if_false]
  rw [hlist]
  show List.mapM _ [tid] = _
  exact mapM_singleton _ tid _ hcase

/-- C7 witness. -/
theorem c7_fast_path_witness :
    (supported_templates.contains "template" = true ∧ goodErbId "tpl" = true ∧
      pyStripWs "tpl" = "tpl" ∧ strSub "missing" "abc" = false ∧
      strSub "missing" "abd" = false) ∧
    compare_templates "6.9" "6.10" ⟨[("tpl" ++ ".erb", "abc")]⟩ ⟨[("tpl" ++ ".erb", "abd")]⟩
        "template" = .ok [if "abc" == "abd" then ("true", "true") else ("abc", "abd")] :=
  ⟨⟨by decide, by decide, by decide, by decide, by decide⟩,
    c7_fast_path "6.9" "6.10" "template" "tpl" "abc" "abd" (by decide) (by decide)
      (by decide) (by decide) (by decide)⟩

end SatUp
